import Mathlib

/-!
Verification of the Belgian Housing AI backend
(`backend/statbel_integration.py` and `backend/flask_api.py`).

The prediction calculator is embedded over `ℚ`: Python floats are modelled
as exact rationals, and Python's `round(x, 1)` (round-half-to-even) is
modelled by `round1` below.  The SQLite tables are modelled as Lean lists
of rows, with `INSERT OR REPLACE` following SQLite's documented conflict
semantics: a conflict arises only on a declared uniqueness constraint.
-/

namespace BelgianHousing

/-- Round-half-to-even to the nearest integer, the rounding used by
Python's builtin `round`. -/
def rhe (q : ℚ) : ℤ :=
  if q - ⌊q⌋ < 1/2 then ⌊q⌋
  else if 1/2 < q - ⌊q⌋ then ⌊q⌋ + 1
  else if Even ⌊q⌋ then ⌊q⌋ else ⌊q⌋ + 1

/-- Python's `round(q, 1)`: round to one decimal place, half to even. -/
def round1 (q : ℚ) : ℚ := (rhe (10 * q) : ℚ) / 10

/-! ### The prediction calculator
From `StatbelIntegration.calculate_predictions`
(`backend/statbel_integration.py`, lines 109–132). -/

/-- `urbanization = min(100, density / 50)` (line 109). -/
def urbanization (density : ℚ) : ℚ := min 100 (density / 50)

/-- `size_factor = min(100, population / 1000)` (line 110). -/
def size_factor (population : ℚ) : ℚ := min 100 (population / 1000)

/-- `studio_score = 20 + (urbanization * 0.3) + (size_factor * 0.1)` (line 112). -/
def studio_score (population density : ℚ) : ℚ :=
  20 + urbanization density * (3/10) + size_factor population * (1/10)

/-- `one_bed_score = 40 + (urbanization * 0.2)` (line 113). -/
def one_bed_score (density : ℚ) : ℚ := 40 + urbanization density * (2/10)

/-- `two_bed_score = 40 - (urbanization * 0.1)` (line 114). -/
def two_bed_score (density : ℚ) : ℚ := 40 - urbanization density * (1/10)

/-- `total = studio_score + one_bed_score + two_bed_score` (line 116). -/
def total (population density : ℚ) : ℚ :=
  studio_score population density + one_bed_score density + two_bed_score density

/-- The unrounded studio percentage `(studio_score / total) * 100` (line 126). -/
def studio_raw (population density : ℚ) : ℚ :=
  studio_score population density / total population density * 100

/-- The unrounded one-bedroom percentage `(one_bed_score / total) * 100` (line 127). -/
def one_bed_raw (population density : ℚ) : ℚ :=
  one_bed_score density / total population density * 100

/-- The unrounded two-bedroom percentage `(two_bed_score / total) * 100` (line 128). -/
def two_bed_raw (population density : ℚ) : ℚ :=
  two_bed_score density / total population density * 100

/-- `round((studio_score / total) * 100, 1)` (line 126). -/
def studio_pct (population density : ℚ) : ℚ := round1 (studio_raw population density)

/-- `round((one_bed_score / total) * 100, 1)` (line 127). -/
def one_bed_pct (population density : ℚ) : ℚ := round1 (one_bed_raw population density)

/-- `round((two_bed_score / total) * 100, 1)` (line 128). -/
def two_bed_pct (population density : ℚ) : ℚ := round1 (two_bed_raw population density)

/-- The full tuple written for one municipality by `calculate_predictions`
(lines 119–132): three rounded demand percentages, the constant confidence
score `85.0` and the constant market trend `'stable'`. -/
structure PredictionValues where
  studio_demand_pct : ℚ
  one_bed_demand_pct : ℚ
  two_bed_demand_pct : ℚ
  confidence_score : ℚ
  market_trend : String
deriving DecidableEq, Repr

/-- The prediction computed for one municipality (lines 109–132). -/
def calculate_prediction (population density : ℚ) : PredictionValues :=
  { studio_demand_pct := studio_pct population density
    one_bed_demand_pct := one_bed_pct population density
    two_bed_demand_pct := two_bed_pct population density
    confidence_score := 85
    market_trend := "stable" }

/-! Database model.  The two SQLite tables of `setup_database`
(`backend/statbel_integration.py`, lines 16–51) are modelled as lists of
rows in insertion (rowid) order.  Timestamps (`last_updated`,
`prediction_date`) are not modelled; no claim mentions their values. -/

/-- A row of the `municipalities` table (schema lines 21–34).  The schema
declares `nis_code VARCHAR(10) UNIQUE`. -/
structure MunicipalityRow where
  nis_code : String
  name_nl : String
  name_fr : String
  province : String
  region : String
  population : ℤ
  area_km2 : ℚ
  density : ℚ

/-- A row of the `apartment_predictions` table (schema lines 36–48).
`id` is the `INTEGER PRIMARY KEY AUTOINCREMENT` column.  Note that the
schema declares NO uniqueness constraint on `nis_code` — only the foreign
key reference to `municipalities(nis_code)`. -/
structure PredictionRow where
  id : ℕ
  nis_code : String
  studio_demand_pct : ℚ
  one_bed_demand_pct : ℚ
  two_bed_demand_pct : ℚ
  confidence_score : ℚ
  market_trend : String

/-- The database file: the two tables created by `setup_database`. -/
structure Database where
  municipalities : List MunicipalityRow
  apartment_predictions : List PredictionRow

/-- SQLite `AUTOINCREMENT`: the id chosen for a fresh insert is strictly
larger than every id ever used; modelled as one more than the largest
current id. -/
def nextId (t : List PredictionRow) : ℕ :=
  (t.map (fun r => r.id)).foldr max 0 + 1

/-- One execution of the `INSERT OR REPLACE INTO apartment_predictions`
statement (`statbel_integration.py`, lines 119–132).  Per SQLite semantics,
`OR REPLACE` deletes existing rows only when the new row conflicts with a
declared uniqueness constraint.  The only such constraint on
`apartment_predictions` is the `id` primary key, and a `VALUES` insert
without an explicit id receives a fresh `AUTOINCREMENT` id, so no conflict
ever arises and the statement always appends a new row. -/
def insert_or_replace_prediction (t : List PredictionRow) (code : String)
    (v : PredictionValues) : List PredictionRow :=
  t ++ [⟨nextId t, code, v.studio_demand_pct, v.one_bed_demand_pct,
        v.two_bed_demand_pct, v.confidence_score, v.market_trend⟩]

/-- The batch loop of `calculate_predictions` (lines 100–135): for every row
of `municipalities`, compute the prediction from its population and density
and run the insert statement against the `apartment_predictions` table. -/
def calculate_predictions (muns : List MunicipalityRow)
    (t : List PredictionRow) : List PredictionRow :=
  muns.foldl
    (fun acc m =>
      insert_or_replace_prediction acc m.nis_code
        (calculate_prediction (m.population : ℚ) m.density))
    t

/-! Query service, from `backend/flask_api.py`. -/

/-- `query_db('SELECT * FROM municipalities WHERE nis_code = ?', one=True)`
(flask_api.py lines 112–116): first matching row, or `none`. -/
def findMunicipality (db : Database) (code : String) : Option MunicipalityRow :=
  db.municipalities.find? (fun m => m.nis_code == code)

/-- `query_db('SELECT * FROM apartment_predictions WHERE nis_code = ?',
one=True)` (lines 124–128): first matching row, or `none`. -/
def findPrediction (db : Database) (code : String) : Option PredictionRow :=
  db.apartment_predictions.find? (fun p => p.nis_code == code)

/-- Response of `GET /api/municipalities/<nis_code>`: HTTP status, the
`success` flag of the JSON body, and on success the municipality together
with its prediction row (`null` when absent). -/
structure MunicipalityResponse where
  status : ℕ
  success : Bool
  data : Option (MunicipalityRow × Option PredictionRow)

/-- `get_municipality` (flask_api.py lines 109–136). -/
def get_municipality (db : Database) (nis_code : String) : MunicipalityResponse :=
  match findMunicipality db nis_code with
  | none => ⟨404, false, none⟩
  | some m => ⟨200, true, some (m, findPrediction db nis_code)⟩

/-- The row shape produced by the `LEFT JOIN` in `get_prediction` (lines
141–149): the municipality columns are always present, while the prediction
columns are NULL (`none`) when no prediction row joins. -/
structure PredictionJoinRow where
  nis_code : String
  name_nl : String
  region : String
  population : ℤ
  density : ℚ
  studio_demand_pct : Option ℚ
  one_bed_demand_pct : Option ℚ
  two_bed_demand_pct : Option ℚ
  confidence_score : Option ℚ
  market_trend : Option String

/-- Response of `GET /api/predictions/<nis_code>`. -/
structure PredictionResponse where
  status : ℕ
  success : Bool
  data : Option PredictionJoinRow

/-- `get_prediction` (flask_api.py lines 138–162). -/
def get_prediction (db : Database) (nis_code : String) : PredictionResponse :=
  match findMunicipality db nis_code with
  | none => ⟨404, false, none⟩
  | some m =>
    let p := findPrediction db nis_code
    ⟨200, true, some
      ⟨m.nis_code, m.name_nl, m.region, m.population, m.density,
       p.map (fun r => r.studio_demand_pct), p.map (fun r => r.one_bed_demand_pct),
       p.map (fun r => r.two_bed_demand_pct), p.map (fun r => r.confidence_score),
       p.map (fun r => r.market_trend)⟩⟩

/-- The `ORDER BY population DESC` comparison used by the list and search
endpoints. -/
def popDesc (a b : MunicipalityRow) : Prop := b.population ≤ a.population

instance : DecidableRel popDesc := fun a b =>
  inferInstanceAs (Decidable (b.population ≤ a.population))

instance : IsTotal MunicipalityRow popDesc :=
  ⟨fun a b => le_total b.population a.population⟩

instance : IsTrans MunicipalityRow popDesc :=
  ⟨fun _ _ _ h1 h2 => le_trans h2 h1⟩

/-- `listStartsWith pat l` : `pat` occurs at the head of `l`. -/
def listStartsWith : List Char → List Char → Bool
  | [], _ => true
  | _ :: _, [] => false
  | a :: as, b :: bs => a == b && listStartsWith as bs

/-- `listSubstr pat l` : `pat` occurs contiguously somewhere in `l`. -/
def listSubstr (pat : List Char) : List Char → Bool
  | [] => pat.isEmpty
  | c :: t => listStartsWith pat (c :: t) || listSubstr pat t

/-- SQLite `LIKE` pattern matching: `%` matches any (possibly empty)
sequence of characters and `_` matches exactly one character; every other
pattern character matches itself.  The first argument is fuel bounding the
recursion depth: every recursive call shortens the pattern or the string,
so `pattern.length + string.length + 1` always suffices and the `0` case is
never reached from `likeContains` below. -/
def likeMatch : ℕ → List Char → List Char → Bool
  | 0, _, _ => false
  | _ + 1, [], s => s.isEmpty
  | fuel + 1, '%' :: ps, s =>
    likeMatch fuel ps s ||
      (match s with
       | [] => false
       | _ :: t => likeMatch fuel ('%' :: ps) t)
  | _ + 1, '_' :: _, [] => false
  | fuel + 1, '_' :: ps, _ :: t => likeMatch fuel ps t
  | _ + 1, _ :: _, [] => false
  | fuel + 1, c :: ps, x :: t => (c == x) && likeMatch fuel ps t

/-- `column LIKE '%q%'` as built by `search` (flask_api.py lines 175–183):
the raw query string is interpolated into the pattern, so `%` and `_`
characters inside `q` keep their LIKE wildcard meaning.  Matching is
ASCII case-insensitive (LIKE's default), modelled by lowercasing both the
pattern and the column value. -/
def likeContains (hay q : String) : Bool :=
  likeMatch
    (('%' :: q.data.map Char.toLower ++ ['%']).length +
      (hay.data.map Char.toLower).length + 1)
    ('%' :: q.data.map Char.toLower ++ ['%'])
    (hay.data.map Char.toLower)

/-- The spec's reading of the search matching, for comparison with the
LIKE semantics the code actually has: plain case-insensitive substring
containment of the query in a name field, with no wildcard
interpretation.  Stated from the spec's words, "matched as a substring
against either localized name field". -/
def substringMatch (hay q : String) : Bool :=
  listSubstr (q.data.map Char.toLower) (hay.data.map Char.toLower)

/-- Response of `GET /api/search`. -/
structure SearchResponse where
  status : ℕ
  success : Bool
  count : ℕ
  data : List MunicipalityRow

/-- `search` (flask_api.py lines 164–190): 400 when the query is shorter
than 2 characters, otherwise the matching rows ordered by population
descending, capped at 20 (`LIMIT 20`), with `count` the number returned. -/
def search (db : Database) (q : String) : SearchResponse :=
  if q.length < 2 then ⟨400, false, 0, []⟩
  else
    let results :=
      ((db.municipalities.filter
          (fun m => likeContains m.name_nl q || likeContains m.name_fr q)).insertionSort
        popDesc).take 20
    ⟨200, true, results.length, results⟩

/-- SQLite `LIMIT ? OFFSET ?`: a negative offset is treated as 0 and a
negative limit means "no limit". -/
def sqlPage (rows : List MunicipalityRow) (limit offset : ℤ) : List MunicipalityRow :=
  let dropped := rows.drop offset.toNat
  if limit < 0 then dropped else dropped.take limit.toNat

/-- Response of `GET /api/municipalities`. -/
structure ListResponse where
  status : ℕ
  success : Bool
  total : ℕ
  count : ℕ
  data : List MunicipalityRow

/-- The body of `get_municipalities` after parameter extraction
(flask_api.py lines 89–107): the page of the population-descending ordering
selected by `LIMIT ? OFFSET ?`, its length as `count`, and the full row
count of the table as `total`. -/
def get_municipalities (db : Database) (limit offset : ℤ) : ListResponse :=
  let page := sqlPage (db.municipalities.insertionSort popDesc) limit offset
  ⟨200, true, db.municipalities.length, page.length, page⟩

/-- `l.all Char.isDigit` for the digits of a candidate integer literal. -/
def isDigitList (l : List Char) : Bool := l.all Char.isDigit

/-- Numeric value of a list of decimal digits. -/
def digitsVal (l : List Char) : ℕ :=
  l.foldl (fun acc c => 10 * acc + (c.toNat - 48)) 0

/-- Python `int(s)` as used by Flask's `type=int` converter: an optional
sign followed by one or more decimal digits parses to the signed value;
anything else raises `ValueError` (modelled as `none`). -/
def pyInt? (s : String) : Option ℤ :=
  match s.data with
  | [] => none
  | '-' :: rest =>
    if rest.isEmpty then none
    else if isDigitList rest then some (-(digitsVal rest : ℤ)) else none
  | '+' :: rest =>
    if rest.isEmpty then none
    else if isDigitList rest then some (digitsVal rest : ℤ) else none
  | l => if isDigitList l then some (digitsVal l : ℤ) else none

/-- Flask `request.args.get(name, default, type=int)` (flask_api.py lines
86–87): Werkzeug applies the converter to the raw parameter value and
silently falls back to the default when the conversion raises; an absent
parameter also yields the default. -/
def getIntArg (v : Option String) (dflt : ℤ) : ℤ :=
  match v with
  | none => dflt
  | some s =>
    match pyInt? s with
    | none => dflt
    | some n => n

/-- `get_municipalities` including its parameter parsing (lines 83–107):
`limit` defaults to 100 and `offset` to 0. -/
def get_municipalities_endpoint (db : Database)
    (limitArg offsetArg : Option String) : ListResponse :=
  get_municipalities db (getIntArg limitArg 100) (getIntArg offsetArg 0)

/-- The Antwerp row of the hardcoded dataset
(`import_municipalities`, line 57). -/
def antwerpen : MunicipalityRow :=
  ⟨"11002", "Antwerpen", "Anvers", "Antwerpen", "Vlaanderen", 530504, 204.51, 2594⟩

/-- The Ghent row of the hardcoded dataset (line 58). -/
def gent : MunicipalityRow :=
  ⟨"44021", "Gent", "Gand", "Oost-Vlaanderen", "Vlaanderen", 264689, 156.18, 1695⟩

/-- A concrete store used to exercise the endpoint theorems: two
municipalities, no prediction rows. -/
def exampleDB : Database := ⟨[antwerpen, gent], []⟩

/-- The Aalst row of the hardcoded dataset (`import_municipalities`,
line 64). -/
def aalst : MunicipalityRow :=
  ⟨"41002", "Aalst", "Alost", "Oost-Vlaanderen", "Vlaanderen", 87763, 78.08, 1124⟩

/-- A one-row store exercising the wildcard behaviour of the search
endpoint. -/
def exampleDB2 : Database := ⟨[aalst], []⟩

/-! Helper lemmas about the rounding function and the calculator. -/

theorem abs_rhe_sub (q : ℚ) : |(rhe q : ℚ) - q| ≤ 1/2 := by
  have hfl : (⌊q⌋ : ℚ) ≤ q := Int.floor_le q
  have hfu : q < (⌊q⌋ : ℚ) + 1 := Int.lt_floor_add_one q
  unfold rhe
  split_ifs with h1 h2 h3 <;> rw [abs_le] <;> constructor <;> push_cast <;> linarith

theorem rhe_mono {q r : ℚ} (h : q ≤ r) : rhe q ≤ rhe r := by
  by_contra hc
  push_neg at hc
  have h1 := abs_rhe_sub q
  have h2 := abs_rhe_sub r
  rw [abs_le] at h1 h2
  have hlt : (rhe r : ℚ) + 1 ≤ (rhe q : ℚ) := by
    have := Int.add_one_le_iff.mpr hc
    exact_mod_cast this
  have heq : q = r := le_antisymm h (by linarith)
  subst heq
  exact absurd hc (lt_irrefl _)

theorem abs_round1_sub (q : ℚ) : |round1 q - q| ≤ 1/20 := by
  have h := abs_rhe_sub (10 * q)
  have h10 : round1 q - q = ((rhe (10 * q) : ℚ) - 10 * q) / 10 := by
    unfold round1; ring
  rw [h10, abs_div]
  rw [abs_of_pos (show (0:ℚ) < 10 by norm_num)]
  linarith [abs_nonneg ((rhe (10 * q) : ℚ) - 10 * q)]

theorem round1_mono {q r : ℚ} (h : q ≤ r) : round1 q ≤ round1 r := by
  unfold round1
  have := rhe_mono (mul_le_mul_of_nonneg_left h (by norm_num : (0:ℚ) ≤ 10))
  have hc : ((rhe (10 * q) : ℤ) : ℚ) ≤ ((rhe (10 * r) : ℤ) : ℚ) := by exact_mod_cast this
  linarith

theorem urbanization_nonneg {d : ℚ} (hd : 0 ≤ d) : 0 ≤ urbanization d :=
  le_min (by norm_num) (by positivity)

theorem urbanization_le (d : ℚ) : urbanization d ≤ 100 := min_le_left _ _

theorem size_factor_nonneg {p : ℚ} (hp : 0 ≤ p) : 0 ≤ size_factor p :=
  le_min (by norm_num) (by positivity)

theorem size_factor_le (p : ℚ) : size_factor p ≤ 100 := min_le_left _ _

theorem studio_score_ge {p d : ℚ} (hp : 0 ≤ p) (hd : 0 ≤ d) :
    20 ≤ studio_score p d := by
  have h1 := urbanization_nonneg hd
  have h2 := size_factor_nonneg hp
  unfold studio_score
  nlinarith

theorem one_bed_score_ge {d : ℚ} (hd : 0 ≤ d) : 40 ≤ one_bed_score d := by
  have h1 := urbanization_nonneg hd
  unfold one_bed_score
  nlinarith

theorem two_bed_score_ge (d : ℚ) : 30 ≤ two_bed_score d := by
  have h1 := urbanization_le d
  unfold two_bed_score
  nlinarith

theorem total_pos {p d : ℚ} (hp : 0 ≤ p) (hd : 0 ≤ d) : 0 < total p d := by
  have h1 := studio_score_ge hp hd
  have h2 := one_bed_score_ge hd
  have h3 := two_bed_score_ge d
  unfold total
  linarith

theorem raw_sum {p d : ℚ} (hp : 0 ≤ p) (hd : 0 ≤ d) :
    studio_raw p d + one_bed_raw p d + two_bed_raw p d = 100 := by
  have hT := total_pos hp hd
  have hT0 : total p d ≠ 0 := ne_of_gt hT
  unfold studio_raw one_bed_raw two_bed_raw
  rw [div_mul_eq_mul_div, div_mul_eq_mul_div, div_mul_eq_mul_div,
    div_add_div_same, div_add_div_same, div_eq_iff hT0]
  unfold total
  ring

theorem total_eq (p d : ℚ) :
    total p d = 100 + urbanization d * (4/10) + size_factor p * (1/10) := by
  unfold total studio_score one_bed_score two_bed_score
  ring

/-! Claim theorems. -/

/-- C1: the claim states that each batch run writes exactly one row per
municipality keyed by municipal code and that re-running overwrites rather
than appends.  The code violates this: `apartment_predictions` declares no
uniqueness constraint on `nis_code`, so the `INSERT OR REPLACE` never
conflicts and always appends.  Concretely, seeding the store with the
Antwerp municipality alone and running `calculate_predictions` twice leaves
two prediction rows with `nis_code` `11002`. -/
theorem claim1_code_bug :
    ((calculate_predictions [antwerpen]
        (calculate_predictions [antwerpen] [])).filter
      (fun r => r.nis_code == "11002")).length = 2 := by
  decide

/-- C2: for population ≥ 0 and density ≥ 0 the sum of the three rounded
output percentages is within 0.1 of 100.0, but it is not guaranteed to be
exactly 100.0 (at the Antwerp inputs it is 99.9). -/
theorem claim2 :
    (∀ p d : ℚ, 0 ≤ p → 0 ≤ d →
      |studio_pct p d + one_bed_pct p d + two_bed_pct p d - 100| ≤ 1/10) ∧
    (∃ p d : ℚ, 0 ≤ p ∧ 0 ≤ d ∧
      studio_pct p d + one_bed_pct p d + two_bed_pct p d ≠ 100) := by
  constructor
  · intro p d hp hd
    have hsum := raw_sum hp hd
    have e1 := abs_round1_sub (studio_raw p d)
    have e2 := abs_round1_sub (one_bed_raw p d)
    have e3 := abs_round1_sub (two_bed_raw p d)
    rw [abs_le] at e1 e2 e3
    have hm : studio_pct p d + one_bed_pct p d + two_bed_pct p d - 100 =
        ((rhe (10 * studio_raw p d) + rhe (10 * one_bed_raw p d) +
          rhe (10 * two_bed_raw p d) - 1000 : ℤ) : ℚ) / 10 := by
      show round1 (studio_raw p d) + round1 (one_bed_raw p d) +
        round1 (two_bed_raw p d) - 100 = _
      unfold round1
      push_cast
      ring
    set m : ℤ := rhe (10 * studio_raw p d) + rhe (10 * one_bed_raw p d) +
      rhe (10 * two_bed_raw p d) - 1000 with hmdef
    have hb : |((m : ℤ) : ℚ)| ≤ 3/2 := by
      have hsplit : studio_pct p d + one_bed_pct p d + two_bed_pct p d - 100 =
          (round1 (studio_raw p d) - studio_raw p d) +
          (round1 (one_bed_raw p d) - one_bed_raw p d) +
          (round1 (two_bed_raw p d) - two_bed_raw p d) := by
        show round1 (studio_raw p d) + round1 (one_bed_raw p d) +
          round1 (two_bed_raw p d) - 100 = _
        linarith
      have h32 : |studio_pct p d + one_bed_pct p d + two_bed_pct p d - 100|
          ≤ 3/20 := by
        rw [hsplit, abs_le]
        constructor <;> linarith
      rw [hm, abs_div] at h32
      rw [abs_of_pos (show (0:ℚ) < 10 by norm_num)] at h32
      linarith
    have hbz : ((|m| : ℤ) : ℚ) ≤ 3/2 := by rwa [Int.cast_abs]
    have hb2 : |m| < 2 := by
      exact_mod_cast lt_of_le_of_lt hbz (show (3:ℚ)/2 < ((2:ℤ):ℚ) by norm_num)
    have hb1 : |m| ≤ 1 := by omega
    have hb1q : |((m : ℤ) : ℚ)| ≤ 1 := by
      rw [← Int.cast_abs]
      exact_mod_cast hb1
    rw [hm, abs_div, abs_of_pos (show (0:ℚ) < 10 by norm_num)]
    linarith
  · refine ⟨530504, 2594, by norm_num, by norm_num, ?_⟩
    norm_num [studio_pct, one_bed_pct, two_bed_pct, round1, rhe,
      studio_raw, one_bed_raw, two_bed_raw, studio_score, one_bed_score,
      two_bed_score, total, urbanization, size_factor, Int.even_iff]

/-- Witness for C2: at population 0, density 0 the hypotheses hold and the
bound applies. -/
theorem claim2_witness :
    (0:ℚ) ≤ 0 ∧
    |studio_pct 0 0 + one_bed_pct 0 0 + two_bed_pct 0 0 - 100| ≤ 1/10 :=
  ⟨le_refl 0, claim2.1 0 0 (le_refl 0) (le_refl 0)⟩

/-- C3 is false as stated: at density 0 and population 0 all three scores
take their base values 20, 40 and 40, so the total is 100, not the claimed
80. -/
theorem claim3_counterexample :
    total 0 0 = 100 ∧ ¬ total 0 0 = 80 := by
  constructor <;>
    norm_num [total, studio_score, one_bed_score, two_bed_score,
      urbanization, size_factor]

/-- C3 (amended): for every population ≥ 0 and density ≥ 0 the raw scores
satisfy studio ≥ 20, one-bed ≥ 40 and two-bed ≥ 30, hence the total is
positive and the division never divides by zero; in particular density 0
and population 0 give total = 100 (not 80). -/
theorem claim3_amended : ∀ p d : ℚ, 0 ≤ p → 0 ≤ d →
    (20 ≤ studio_score p d ∧ 40 ≤ one_bed_score d ∧ 30 ≤ two_bed_score d ∧
      0 < total p d) ∧ total 0 0 = 100 := by
  intro p d hp hd
  refine ⟨⟨studio_score_ge hp hd, one_bed_score_ge hd, two_bed_score_ge d,
    total_pos hp hd⟩, ?_⟩
  norm_num [total, studio_score, one_bed_score, two_bed_score,
    urbanization, size_factor]

/-- Witness for C3 (amended) at population 0, density 0. -/
theorem claim3_witness :
    (0:ℚ) ≤ 0 ∧
    ((20 ≤ studio_score 0 0 ∧ 40 ≤ one_bed_score 0 ∧ 30 ≤ two_bed_score 0 ∧
      0 < total 0 0) ∧ total 0 0 = 100) :=
  ⟨le_refl 0, claim3_amended 0 0 (le_refl 0) (le_refl 0)⟩

/-- C4 is false as stated: the stored demand percentages are rounded to one
decimal place, so a small density increase need not change them.  At
population 0 the densities 1000 and 1001 satisfy every hypothesis of the
claim, yet the studio percentage is 24.1 at both, not strictly larger at
the larger density. -/
theorem claim4_counterexample :
    (0:ℚ) ≤ 0 ∧ (0:ℚ) ≤ 1000 ∧ (1000:ℚ) < 1001 ∧ (1001:ℚ) ≤ 5000 ∧
    studio_pct 0 1000 = studio_pct 0 1001 ∧
    ¬ studio_pct 0 1000 < studio_pct 0 1001 := by
  have h1 : studio_pct 0 1000 = 24.1 := by
    norm_num [studio_pct, round1, rhe, studio_raw, studio_score,
      one_bed_score, two_bed_score, total, urbanization, size_factor,
      Int.even_iff]
  have h2 : studio_pct 0 1001 = 24.1 := by
    norm_num [studio_pct, round1, rhe, studio_raw, studio_score,
      one_bed_score, two_bed_score, total, urbanization, size_factor,
      Int.even_iff]
  refine ⟨le_refl 0, by norm_num, by norm_num, by norm_num,
    h1.trans h2.symm, ?_⟩
  rw [h1, h2]
  exact lt_irrefl _

/-- C4 (amended): for fixed population ≥ 0 and densities 0 ≤ d1 < d2 ≤ 5000
the *unrounded* percentages are strictly monotone — studio and one-bed
strictly increase with density while two-bed strictly decreases — and
consequently the rounded stored percentages are monotone in the same
directions, though only weakly because of the one-decimal rounding. -/
theorem claim4_amended : ∀ p d1 d2 : ℚ, 0 ≤ p → 0 ≤ d1 → d1 < d2 → d2 ≤ 5000 →
    (studio_raw p d1 < studio_raw p d2 ∧
     one_bed_raw p d1 < one_bed_raw p d2 ∧
     two_bed_raw p d2 < two_bed_raw p d1) ∧
    (studio_pct p d1 ≤ studio_pct p d2 ∧
     one_bed_pct p d1 ≤ one_bed_pct p d2 ∧
     two_bed_pct p d2 ≤ two_bed_pct p d1) := by
  intro p d1 d2 hp hd1 h12 h2le
  have hd1le : d1 ≤ 5000 := le_of_lt (lt_of_lt_of_le h12 h2le)
  have hd2 : 0 ≤ d2 := le_trans hd1 (le_of_lt h12)
  have hu1 : urbanization d1 = d1 / 50 := min_eq_right (by linarith)
  have hu2 : urbanization d2 = d2 / 50 := min_eq_right (by linarith)
  have hs0 : 0 ≤ size_factor p := size_factor_nonneg hp
  have hs1 : size_factor p ≤ 100 := size_factor_le p
  have hT1 : 0 < 100 + d1 / 50 * (4/10) + size_factor p * (1/10) := by
    have := total_pos hp hd1
    rw [total_eq, hu1] at this
    exact this
  have hT2 : 0 < 100 + d2 / 50 * (4/10) + size_factor p * (1/10) := by
    have := total_pos hp hd2
    rw [total_eq, hu2] at this
    exact this
  have eS1 : studio_raw p d1 =
      (20 + d1 / 50 * (3/10) + size_factor p * (1/10)) * 100 /
        (100 + d1 / 50 * (4/10) + size_factor p * (1/10)) := by
    unfold studio_raw
    rw [total_eq, studio_score, hu1]
    ring
  have eS2 : studio_raw p d2 =
      (20 + d2 / 50 * (3/10) + size_factor p * (1/10)) * 100 /
        (100 + d2 / 50 * (4/10) + size_factor p * (1/10)) := by
    unfold studio_raw
    rw [total_eq, studio_score, hu2]
    ring
  have eO1 : one_bed_raw p d1 =
      (40 + d1 / 50 * (2/10)) * 100 /
        (100 + d1 / 50 * (4/10) + size_factor p * (1/10)) := by
    unfold one_bed_raw
    rw [total_eq, one_bed_score, hu1]
    ring
  have eO2 : one_bed_raw p d2 =
      (40 + d2 / 50 * (2/10)) * 100 /
        (100 + d2 / 50 * (4/10) + size_factor p * (1/10)) := by
    unfold one_bed_raw
    rw [total_eq, one_bed_score, hu2]
    ring
  have eT1 : two_bed_raw p d1 =
      (40 - d1 / 50 * (1/10)) * 100 /
        (100 + d1 / 50 * (4/10) + size_factor p * (1/10)) := by
    unfold two_bed_raw
    rw [total_eq, two_bed_score, hu1]
    ring
  have eT2 : two_bed_raw p d2 =
      (40 - d2 / 50 * (1/10)) * 100 /
        (100 + d2 / 50 * (4/10) + size_factor p * (1/10)) := by
    unfold two_bed_raw
    rw [total_eq, two_bed_score, hu2]
    ring
  have hraw1 : studio_raw p d1 < studio_raw p d2 := by
    rw [eS1, eS2, div_lt_div_iff₀ hT1 hT2]
    nlinarith [mul_pos (sub_pos.mpr h12)
      (show (0:ℚ) < 22 - size_factor p / 100 by linarith)]
  have hraw2 : one_bed_raw p d1 < one_bed_raw p d2 := by
    rw [eO1, eO2, div_lt_div_iff₀ hT1 hT2]
    nlinarith [mul_pos (sub_pos.mpr h12)
      (show (0:ℚ) < 4 + size_factor p / 50 by linarith)]
  have hraw3 : two_bed_raw p d2 < two_bed_raw p d1 := by
    rw [eT2, eT1, div_lt_div_iff₀ hT2 hT1]
    nlinarith [mul_pos (sub_pos.mpr h12)
      (show (0:ℚ) < 26 + size_factor p / 100 by linarith)]
  exact ⟨⟨hraw1, hraw2, hraw3⟩,
    round1_mono (le_of_lt hraw1), round1_mono (le_of_lt hraw2),
    round1_mono (le_of_lt hraw3)⟩

/-- Witness for C4 (amended) at population 0 and densities 0 < 5000. -/
theorem claim4_witness :
    (0:ℚ) ≤ 0 ∧ (0:ℚ) < 5000 ∧ (5000:ℚ) ≤ 5000 ∧
    ((studio_raw 0 0 < studio_raw 0 5000 ∧
      one_bed_raw 0 0 < one_bed_raw 0 5000 ∧
      two_bed_raw 0 5000 < two_bed_raw 0 0) ∧
     (studio_pct 0 0 ≤ studio_pct 0 5000 ∧
      one_bed_pct 0 0 ≤ one_bed_pct 0 5000 ∧
      two_bed_pct 0 5000 ≤ two_bed_pct 0 0)) :=
  ⟨le_refl 0, by simp, by simp,
    claim4_amended 0 0 5000 (le_refl 0) (le_refl 0) (by simp) (by simp)⟩

/-- C5 is false as stated: at the Antwerp inputs (population 530504,
density 2594) the unrounded studio percentage is 45.564/130.752·100 ≈
34.85, which rounds to 34.8, not the claimed 34.9. -/
theorem claim5_counterexample :
    studio_pct 530504 2594 = 34.8 ∧ (34.8 : ℚ) ≠ 34.9 := by
  constructor
  · norm_num [studio_pct, round1, rhe, studio_raw, studio_score,
      one_bed_score, two_bed_score, total, urbanization, size_factor,
      Int.even_iff]
  · norm_num

/-- C5 (amended): at population 530504 and density 2594 (Antwerp) the
calculator computes urbanization 51.88, size factor 100, studio score
45.564, one-bed score 50.376, two-bed score 34.812 and total 130.752, and
the rounded output percentages are studio 34.8, one-bed 38.5 and two-bed
26.6. -/
theorem claim5_amended :
    urbanization 2594 = 51.88 ∧ size_factor 530504 = 100 ∧
    studio_score 530504 2594 = 45.564 ∧ one_bed_score 2594 = 50.376 ∧
    two_bed_score 2594 = 34.812 ∧ total 530504 2594 = 130.752 ∧
    studio_pct 530504 2594 = 34.8 ∧ one_bed_pct 530504 2594 = 38.5 ∧
    two_bed_pct 530504 2594 = 26.6 := by
  refine ⟨?_, ?_, ?_, ?_, ?_, ?_, ?_, ?_, ?_⟩ <;>
    norm_num [studio_pct, one_bed_pct, two_bed_pct, round1, rhe,
      studio_raw, one_bed_raw, two_bed_raw, studio_score, one_bed_score,
      two_bed_score, total, urbanization, size_factor, Int.even_iff]

/-- C6: at population 1000000 and density 10000 both factors clamp at 100,
the scores are 60, 60 and 30 with total 150, and the calculator outputs
exactly 40.0, 40.0 and 20.0 with confidence 85.0 and trend "stable". -/
theorem claim6 :
    urbanization 10000 = 100 ∧ size_factor 1000000 = 100 ∧
    studio_score 1000000 10000 = 60 ∧ one_bed_score 10000 = 60 ∧
    two_bed_score 10000 = 30 ∧ total 1000000 10000 = 150 ∧
    (calculate_prediction 1000000 10000).studio_demand_pct = 40 ∧
    (calculate_prediction 1000000 10000).one_bed_demand_pct = 40 ∧
    (calculate_prediction 1000000 10000).two_bed_demand_pct = 20 ∧
    (calculate_prediction 1000000 10000).confidence_score = 85 ∧
    (calculate_prediction 1000000 10000).market_trend = "stable" := by
  refine ⟨?_, ?_, ?_, ?_, ?_, ?_, ?_, ?_, ?_, ?_, rfl⟩ <;>
    norm_num [calculate_prediction, studio_pct, one_bed_pct, two_bed_pct,
      round1, rhe, studio_raw, one_bed_raw, two_bed_raw, studio_score,
      one_bed_score, two_bed_score, total, urbanization, size_factor,
      Int.even_iff]

/-- C7: the municipality and prediction endpoints return 404 with
`success:false` exactly when the code is absent from the municipalities
table; when the municipality exists but has no prediction row, both return
200 — the municipality endpoint with `prediction` null and the prediction
endpoint with the prediction fields present but null-filled. -/
theorem claim7 : ∀ (db : Database) (code : String),
    (((get_municipality db code).status = 404 ∧
        (get_municipality db code).success = false) ↔
      ∀ m ∈ db.municipalities, m.nis_code ≠ code) ∧
    (((get_prediction db code).status = 404 ∧
        (get_prediction db code).success = false) ↔
      ∀ m ∈ db.municipalities, m.nis_code ≠ code) ∧
    (∀ m, findMunicipality db code = some m → findPrediction db code = none →
      (get_municipality db code).status = 200 ∧
      (get_municipality db code).success = true ∧
      (get_municipality db code).data = some (m, none) ∧
      (get_prediction db code).status = 200 ∧
      (get_prediction db code).success = true ∧
      (get_prediction db code).data = some
        ⟨m.nis_code, m.name_nl, m.region, m.population, m.density,
          none, none, none, none, none⟩) := by
  intro db code
  have habs : (findMunicipality db code = none) ↔
      ∀ m ∈ db.municipalities, m.nis_code ≠ code := by
    simp [findMunicipality, List.find?_eq_none]
  cases hf : findMunicipality db code with
  | none =>
    refine ⟨?_, ?_, ?_⟩
    · simp only [get_municipality, hf]
      simpa using habs.mp hf
    · simp only [get_prediction, hf]
      simpa using habs.mp hf
    · intro m hm
      exact absurd hm (by simp)
  | some m0 =>
    have hf' : db.municipalities.find? (fun m => m.nis_code == code) = some m0 := hf
    have hmem : ¬ ∀ m ∈ db.municipalities, m.nis_code ≠ code := by
      intro hall
      have h1 : m0 ∈ db.municipalities := List.mem_of_find?_eq_some hf'
      have h2 := List.find?_some hf'
      exact hall m0 h1 (by simpa using h2)
    refine ⟨?_, ?_, ?_⟩
    · simp only [get_municipality, hf]
      simpa using hmem
    · simp only [get_prediction, hf]
      simpa using hmem
    · intro m hm hp
      injection hm with hm'
      subst hm'
      refine ⟨?_, ?_, ?_, ?_, ?_, ?_⟩ <;>
        simp [get_municipality, get_prediction, hf, hp]

/-- Witness for C7: on a store holding Antwerp and Ghent with no prediction
rows, looking up the absent code 99999 yields 404 on both endpoints, and
looking up 11002 yields 200 with null-filled prediction data. -/
theorem claim7_witness :
    ((get_municipality exampleDB "99999").status = 404 ∧
      (get_municipality exampleDB "99999").success = false) ∧
    findMunicipality exampleDB "11002" = some antwerpen ∧
    findPrediction exampleDB "11002" = none ∧
    ((get_municipality exampleDB "11002").status = 200 ∧
     (get_municipality exampleDB "11002").success = true ∧
     (get_municipality exampleDB "11002").data = some (antwerpen, none) ∧
     (get_prediction exampleDB "11002").status = 200 ∧
     (get_prediction exampleDB "11002").success = true ∧
     (get_prediction exampleDB "11002").data = some
       ⟨antwerpen.nis_code, antwerpen.name_nl, antwerpen.region,
         antwerpen.population, antwerpen.density,
         none, none, none, none, none⟩) :=
  ⟨(claim7 exampleDB "99999").1.mpr (by decide),
   rfl, rfl,
   (claim7 exampleDB "11002").2.2 antwerpen rfl rfl⟩

/-- C8 is false as stated: the raw query is interpolated into the
`LIKE '%q%'` pattern, so `%` and `_` inside the query act as wildcards
rather than literal characters.  On a store holding only the Aalst row,
the length-2 query `a_` matches no name field as a substring, yet the
endpoint returns the Aalst row (lowercased `aalst` matches the pattern
`%a_%`, `a` followed by any one character): `count` is 1 and the returned
row does not contain `a_`, falsifying both the substring-match and the
zero-matches-implies-empty parts of the claim. -/
theorem claim8_counterexample :
    2 ≤ ("a_" : String).length ∧
    (∀ m ∈ exampleDB2.municipalities,
      (substringMatch m.name_nl "a_" || substringMatch m.name_fr "a_") = false) ∧
    (search exampleDB2 "a_").status = 200 ∧
    (search exampleDB2 "a_").count = 1 ∧
    (search exampleDB2 "a_").data.length = 1 ∧
    (∀ m ∈ (search exampleDB2 "a_").data,
      (substringMatch m.name_nl "a_" || substringMatch m.name_fr "a_") = false) := by
  decide

/-- C8 (amended): the search endpoint returns 400 with `success:false`
exactly when the query is shorter than 2 characters, independently of the
store; for a query of length at least 2 it returns 200 with at most 20
rows, each matching the SQLite LIKE pattern `%q%` against one of the two
localized name fields (the query is interpolated into the pattern, so `%`
and `_` inside it act as wildcards; case-insensitively), ordered by
population descending, with `count` the number of returned rows and
`count:0, data:[]` when no row matches the pattern. -/
theorem claim8 : ∀ (db : Database) (q : String),
    (((search db q).status = 400 ∧ (search db q).success = false) ↔
      q.length < 2) ∧
    (2 ≤ q.length →
      (search db q).status = 200 ∧ (search db q).success = true ∧
      (search db q).data.length ≤ 20 ∧
      (search db q).count = (search db q).data.length ∧
      List.Sorted popDesc (search db q).data ∧
      (∀ m ∈ (search db q).data,
        (likeContains m.name_nl q || likeContains m.name_fr q) = true) ∧
      ((∀ m ∈ db.municipalities,
          (likeContains m.name_nl q || likeContains m.name_fr q) = false) →
        (search db q).count = 0 ∧ (search db q).data = [])) := by
  intro db q
  by_cases hq : q.length < 2
  · refine ⟨by simp [search, hq], ?_⟩
    intro h2
    omega
  · have hs : search db q =
        ⟨200, true,
          (((db.municipalities.filter
              (fun m => likeContains m.name_nl q || likeContains m.name_fr q)).insertionSort
            popDesc).take 20).length,
          ((db.municipalities.filter
              (fun m => likeContains m.name_nl q || likeContains m.name_fr q)).insertionSort
            popDesc).take 20⟩ := by
      unfold search
      rw [if_neg hq]
    refine ⟨by rw [hs]; simpa using hq, ?_⟩
    intro _
    refine ⟨by rw [hs], by rw [hs], ?_, by rw [hs], ?_, ?_, ?_⟩
    · rw [hs]
      simp [List.length_take]
    · rw [hs]
      exact List.Pairwise.sublist (List.take_sublist _ _)
        (List.sorted_insertionSort popDesc _)
    · rw [hs]
      intro m hm
      have h1 : m ∈ (db.municipalities.filter
          (fun m => likeContains m.name_nl q || likeContains m.name_fr q)).insertionSort
            popDesc :=
        List.mem_of_mem_take hm
      rw [List.mem_insertionSort] at h1
      exact (List.mem_filter.mp h1).2
    · intro hnone
      have hfil : db.municipalities.filter
          (fun m => likeContains m.name_nl q || likeContains m.name_fr q) = [] := by
        rw [List.filter_eq_nil_iff]
        intro m hm
        rw [hnone m hm]
        simp
      rw [hs]
      simp [hfil]

/-- Witness for C8: on the two-row example store the query "an" (length 2)
exercises the 200 branch. -/
theorem claim8_witness :
    2 ≤ ("an" : String).length ∧
    ((search exampleDB "an").status = 200 ∧
     (search exampleDB "an").success = true ∧
     (search exampleDB "an").data.length ≤ 20 ∧
     (search exampleDB "an").count = (search exampleDB "an").data.length ∧
     List.Sorted popDesc (search exampleDB "an").data ∧
     (∀ m ∈ (search exampleDB "an").data,
       (likeContains m.name_nl "an" || likeContains m.name_fr "an") = true) ∧
     ((∀ m ∈ exampleDB.municipalities,
         (likeContains m.name_nl "an" || likeContains m.name_fr "an") = false) →
       (search exampleDB "an").count = 0 ∧ (search exampleDB "an").data = [])) :=
  ⟨by decide, (claim8 exampleDB "an").2 (by decide)⟩

/-- C9: for every store and non-negative limit and offset, the list
endpoint reports `total` equal to the full row count of the municipalities
table independently of the page requested, `count` equal to the number of
rows in the returned page, `count = 0` for `limit = 0` with `total`
unchanged, and a page ordered by population descending. -/
theorem claim9 : ∀ (db : Database) (limit offset : ℤ),
    0 ≤ limit → 0 ≤ offset →
    (get_municipalities db limit offset).status = 200 ∧
    (get_municipalities db limit offset).success = true ∧
    (get_municipalities db limit offset).total = db.municipalities.length ∧
    (get_municipalities db limit offset).count =
      (get_municipalities db limit offset).data.length ∧
    (get_municipalities db 0 offset).count = 0 ∧
    (get_municipalities db 0 offset).total = db.municipalities.length ∧
    List.Sorted popDesc (get_municipalities db limit offset).data := by
  intro db limit offset _ _
  refine ⟨rfl, rfl, rfl, rfl, ?_, rfl, ?_⟩
  · show (sqlPage (db.municipalities.insertionSort popDesc) 0 offset).length = 0
    unfold sqlPage
    rw [if_neg (by norm_num : ¬ (0:ℤ) < 0)]
    simp
  · show List.Sorted popDesc
      (sqlPage (db.municipalities.insertionSort popDesc) limit offset)
    unfold sqlPage
    split_ifs with h
    · exact List.Pairwise.sublist (List.drop_sublist _ _)
        (List.sorted_insertionSort popDesc _)
    · exact List.Pairwise.sublist
        ((List.take_sublist _ _).trans (List.drop_sublist _ _))
        (List.sorted_insertionSort popDesc _)

/-- Witness for C9 at limit 0, offset 0 on the example store. -/
theorem claim9_witness :
    (0:ℤ) ≤ 0 ∧
    ((get_municipalities exampleDB 0 0).status = 200 ∧
     (get_municipalities exampleDB 0 0).success = true ∧
     (get_municipalities exampleDB 0 0).total =
       exampleDB.municipalities.length ∧
     (get_municipalities exampleDB 0 0).count =
       (get_municipalities exampleDB 0 0).data.length ∧
     (get_municipalities exampleDB 0 0).count = 0 ∧
     (get_municipalities exampleDB 0 0).total =
       exampleDB.municipalities.length ∧
     List.Sorted popDesc (get_municipalities exampleDB 0 0).data) :=
  ⟨le_refl 0, claim9 exampleDB 0 0 (le_refl 0) (le_refl 0)⟩

/-- C10: when the `limit` or `offset` query parameter is present but not
parseable as an integer, the list endpoint neither fails nor returns 400:
the unparseable parameter is silently replaced by its default (100 for
limit, 0 for offset) and the request succeeds with 200. -/
theorem claim10 : ∀ (db : Database) (v : String)
    (limitArg offsetArg : Option String),
    pyInt? v = none →
    getIntArg (some v) 100 = 100 ∧
    getIntArg (some v) 0 = 0 ∧
    get_municipalities_endpoint db (some v) offsetArg =
      get_municipalities_endpoint db none offsetArg ∧
    get_municipalities_endpoint db limitArg (some v) =
      get_municipalities_endpoint db limitArg none ∧
    (get_municipalities_endpoint db (some v) (some v)).status = 200 := by
  intro db v limitArg offsetArg hv
  have h100 : getIntArg (some v) 100 = 100 := by
    simp [getIntArg, hv]
  have h0 : getIntArg (some v) 0 = 0 := by
    simp [getIntArg, hv]
  refine ⟨h100, h0, ?_, ?_, rfl⟩
  · unfold get_municipalities_endpoint
    rw [h100]
    rfl
  · unfold get_municipalities_endpoint
    rw [h0]
    rfl

/-- Witness for C10 with the unparseable parameter value "abc". -/
theorem claim10_witness :
    pyInt? "abc" = none ∧
    (getIntArg (some "abc") 100 = 100 ∧
     getIntArg (some "abc") 0 = 0 ∧
     get_municipalities_endpoint exampleDB (some "abc") none =
       get_municipalities_endpoint exampleDB none none ∧
     get_municipalities_endpoint exampleDB none (some "abc") =
       get_municipalities_endpoint exampleDB none none ∧
     (get_municipalities_endpoint exampleDB (some "abc") (some "abc")).status
       = 200) :=
  ⟨rfl, claim10 exampleDB "abc" none none rfl⟩

end BelgianHousing
